import Mathlib

/-!
# Verification of `scraper.py`

A shallow embedding in Lean 4 of the most-active-stocks email job
(`src/scraper.py`), together with theorems checking the natural-language
specification against it.

Modelling conventions:
* JSON scalar field values are modelled by `JVal` (null / bool / number /
  string).  Numbers (Python `int` and `float`) are modelled by `ℚ`;
  Python `int(x)` on a number is truncation toward zero (`pyInt`).
  Python truthiness of these values is `truthy`, and `x or y` is `pyOr`.
* A quote record (a JSON object) is an association list `Quote`;
  `dict.get(k)` with default `None` is `getD` (absent keys behave as null).
* Python `str.endswith` is `endsWithPy`.
* `list.sort(key=..., reverse=True)` is a stable descending sort by the
  key; it is modelled by `List.insertionSort` with the relation `volGE`
  (insertion sort is stable, and a stable sort for a total preorder is
  unique, so this agrees with CPython's timsort).
* Calling `.endswith` on a non-string value raises `TypeError` in Python;
  the embedding returns `none` (`Option`) in that case and propagates it.
-/

namespace Scraper

/-- JSON scalar values occurring in screener quote fields.
Arrays and nested objects never occur in the scalar per-quote fields the
program reads, so they are omitted from the model. -/
inductive JVal where
  | jnull
  | jbool (b : Bool)
  | jnum (x : ℚ)
  | jstr (s : String)
deriving DecidableEq

/-- Python truthiness of a `JVal` (`None`, `False`, `0`, `""` are falsy). -/
def truthy : JVal → Bool
  | .jnull => false
  | .jbool b => b
  | .jnum x => x != 0
  | .jstr s => s != ""

/-- Python `isinstance(v, (int, float))` (`bool` is a subclass of `int`). -/
def isNumeric : JVal → Bool
  | .jbool _ => true
  | .jnum _ => true
  | _ => false

/-- The numeric value of a numeric `JVal` (`True` counts as 1, `False` as 0). -/
def toRat : JVal → ℚ
  | .jbool b => if b then 1 else 0
  | .jnum x => x
  | _ => 0

/-- Python `int()` applied to a number: truncation toward zero. -/
def pyInt (x : ℚ) : Int := if 0 ≤ x then ⌊x⌋ else ⌈x⌉

/-- Python `a or b`. -/
def pyOr (a b : JVal) : JVal := if truthy a then a else b

/-- A raw quote record from the screener response: a JSON object,
modelled as an association list from field names to values. -/
abbrev Quote := List (String × JVal)

/-- Look a key up in a quote record (`none` when the key is absent). -/
def jget (q : Quote) (k : String) : Option JVal :=
  (q.find? (fun kv => kv.1 == k)).map (fun kv => kv.2)

/-- Python `q.get(k)`: an absent key yields `None` (modelled as `jnull`). -/
def getD (q : Quote) (k : String) : JVal := (jget q k).getD .jnull

/-- Python `s.endswith(t)`. -/
def endsWithPy (s t : String) : Bool := t.data.isSuffixOf s.data

/-- The row record built for each kept quote
(`scraper.py`, lines 88–95). -/
structure Row where
  symbol : String
  name : JVal
  volume : Int
  price : Option ℚ
  change : Option ℚ
  change_pct : Option ℚ
deriving DecidableEq

/-- `vol = q.get("regularMarketVolume") or q.get("averageDailyVolume3Month") or 0`
followed by `int(vol) if isinstance(vol, (int, float)) else 0`
(`scraper.py`, lines 83 and 91). -/
def quoteVolume (q : Quote) : Int :=
  let vol := pyOr (pyOr (getD q "regularMarketVolume") (getD q "averageDailyVolume3Month"))
      (JVal.jnum 0)
  if isNumeric vol then pyInt (toRat vol) else 0

/-- `price if isinstance(price, (int, float)) else None` (and likewise for
the change fields), `scraper.py` lines 92–94. -/
def optNum (v : JVal) : Option ℚ := if isNumeric v then some (toRat v) else none

/-- The row built for a kept quote whose computed symbol is `sym`
(`scraper.py`, lines 83–95). -/
def mkRow (q : Quote) (sym : String) : Row :=
  { symbol := sym
    name := pyOr (pyOr (getD q "shortName") (getD q "longName")) (.jstr sym)
    volume := quoteVolume q
    price := optNum (getD q "regularMarketPrice")
    change := optNum (getD q "regularMarketChange")
    change_pct := optNum (getD q "regularMarketChangePercent") }

/-- `sym = q.get("symbol") or ""` (`scraper.py`, line 80).  The result is a
string, or `none` when the subsequent `sym.endswith(...)` would raise
`TypeError` (a truthy non-string value in the `symbol` field). -/
def symbolOf (q : Quote) : Option String :=
  match pyOr (getD q "symbol") (.jstr "") with
  | .jstr s => some s
  | _ => none

/-- The filtering loop of `select_top_by_exchange`
(`scraper.py`, lines 78–95): keep quotes whose symbol ends with the
suffix, building a `Row` for each, in input order.  `none` models the
`TypeError` crash on a truthy non-string `symbol` value. -/
def filterRows : List Quote → String → Option (List Row)
  | [], _ => some []
  | q :: qs, sfx =>
    match symbolOf q with
    | none => none
    | some sym =>
      if endsWithPy sym sfx then
        match filterRows qs sfx with
        | none => none
        | some rs => some (mkRow q sym :: rs)
      else filterRows qs sfx

/-- The sort relation of `rows.sort(key=lambda r: r["volume"], reverse=True)`:
descending by computed volume. -/
def volGE (a b : Row) : Prop := b.volume ≤ a.volume

instance : DecidableRel volGE := fun a b => inferInstanceAs (Decidable (b.volume ≤ a.volume))

instance : IsTotal Row volGE := ⟨fun a b => Int.le_total b.volume a.volume⟩

instance : IsTrans Row volGE := ⟨fun _ _ _ h1 h2 => le_trans h2 h1⟩

/-- `select_top_by_exchange(quotes, suffix, top_n)` (`scraper.py`,
lines 77–97): filter by ticker suffix, sort stably by volume descending,
truncate to the first `top_n` rows.  `none` models the `TypeError` crash
on a truthy non-string `symbol` value. -/
def select_top_by_exchange (quotes : List Quote) (sfx : String) (top_n : Nat) :
    Option (List Row) :=
  match filterRows quotes sfx with
  | none => none
  | some rows => some ((rows.insertionSort volGE).take top_n)

/-! ## Clock/calendar gate (`scraper.py`, lines 35–47) -/

/-- A local (IST, UTC+5:30) datetime as produced by
`datetime.utcnow() + timedelta(hours=5, minutes=30)`.  Python `datetime`
field ranges are invariants of the type, so they are carried by `Fin`
fields; `weekday` follows Python's `weekday()` convention (Monday = 0,
Sunday = 6).  Calendar arithmetic itself is not modelled: the gate is a
function of the already-computed local datetime. -/
structure ISTDateTime where
  year : Nat
  month : Nat
  day : Nat
  weekday : Fin 7
  hour : Fin 24
  minute : Fin 60
  second : Fin 60
  microsecond : Fin 1000000
deriving DecidableEq

/-- Python comparison `time(h1, m1, s1, u1) <= time(h2, m2, s2, u2)`:
lexicographic on (hour, minute, second, microsecond). -/
def pyTimeLE (h1 m1 s1 u1 h2 m2 s2 u2 : Nat) : Bool :=
  if h1 < h2 then true
  else if h2 < h1 then false
  else if m1 < m2 then true
  else if m2 < m1 then false
  else if s1 < s2 then true
  else if s2 < s1 then false
  else u1 ≤ u2

/-- `is_market_open_ist(dt)` (`scraper.py`, lines 38–47):
closed on weekday ≥ 5 (Sat/Sun), else open iff
`time(9,15) <= dt.time() <= time(15,30)`. -/
def is_market_open_ist (d : ISTDateTime) : Bool :=
  if d.weekday.val ≥ 5 then false
  else pyTimeLE 9 15 0 0 d.hour.val d.minute.val d.second.val d.microsecond.val
    && pyTimeLE d.hour.val d.minute.val d.second.val d.microsecond.val 15 30 0 0

/-- Time of day in microseconds since midnight (specification-side view of
the inclusive window bounds). -/
def timeOfDayUS (d : ISTDateTime) : Nat :=
  ((d.hour.val * 60 + d.minute.val) * 60 + d.second.val) * 1000000 + d.microsecond.val

/-! ## Quote fetcher (`scraper.py`, lines 50–75) -/

/-- The observable outcome of one fetch attempt (one iteration of the
`for attempt in range(1, retries + 1)` loop body's `try` block):
`success qs` models the `return` on HTTP 200 — including the degraded
empty list when the `finance.result[0].quotes` path is missing — and
`failure` models a non-200 status or a raised transport/parse exception
(both of which fall through to the sleep). -/
inductive AttemptResult where
  | success (quotes : List Quote)
  | failure
deriving DecidableEq

/-- Events performed by the fetch loop, in order: `attempt n` is the HTTP
POST of attempt number `n`, and `sleep s` is `time.sleep(s)`. -/
inductive FetchEvent where
  | attempt (n : Nat)
  | sleep (seconds : ℚ)
deriving DecidableEq

/-- The retry loop of `yahoo_screener_most_active_india`
(`scraper.py`, lines 65–75): attempt numbers count up from `a`; on
success the quotes are returned at once; on failure the loop sleeps
`1.5 * attempt` seconds and retries, returning `[]` after the last
attempt.  The second component is the trace of events performed. -/
def fetchLoop (oracle : Nat → AttemptResult) : Nat → Nat → List Quote × List FetchEvent
  | _, 0 => ([], [])
  | a, fuel + 1 =>
    match oracle a with
    | .success qs => (qs, [.attempt a])
    | .failure =>
      let rest := fetchLoop oracle (a + 1) fuel
      (rest.1, .attempt a :: .sleep ((3 / 2 : ℚ) * a) :: rest.2)

/-- `yahoo_screener_most_active_india(size, retries, ...)` (`scraper.py`,
lines 50–75).  The `size` argument only shapes the request payload, which
the attempt oracle abstracts; attempts are numbered from 1. -/
def yahoo_screener_most_active_india (oracle : Nat → AttemptResult) (size retries : Nat) :
    List Quote × List FetchEvent :=
  let _ := size
  fetchLoop oracle 1 retries

/-- The sleep durations occurring in a fetch-event trace, in order. -/
def sleepsOf (evts : List FetchEvent) : List ℚ :=
  evts.filterMap (fun e => match e with | .sleep s => some s | _ => none)

/-- The attempt numbers occurring in a fetch-event trace, in order. -/
def attemptsOf (evts : List FetchEvent) : List Nat :=
  evts.filterMap (fun e => match e with | .attempt n => some n | _ => none)

/-! ## Report renderer (`scraper.py`, lines 99–124) -/

/-- Two-digit zero padding (used by `strftime` fields and `fmt2`). -/
def pad2 (n : Nat) : String := if n < 10 then "0" ++ toString n else toString n

/-- Four-digit zero padding (used for `%Y`). -/
def pad4 (n : Nat) : String :=
  if n < 10 then "000" ++ toString n
  else if n < 100 then "00" ++ toString n
  else if n < 1000 then "0" ++ toString n
  else toString n

/-- `dt.strftime("%Y-%m-%d %H:%M")` (`scraper.py`, line 144). -/
def strftimeYmdHM (d : ISTDateTime) : String :=
  pad4 d.year ++ "-" ++ pad2 d.month ++ "-" ++ pad2 d.day ++ " "
    ++ pad2 d.hour.val ++ ":" ++ pad2 d.minute.val

/-- Python `f"{x:.2f}"` on a number modelled as a rational: rounding to
two decimal places.  (The bit-exact binary-float rounding is not
modelled; no claim depends on the rendered digits.) -/
def fmt2 (x : ℚ) : String :=
  let n : Int := round (x * 100)
  let a := n.natAbs
  (if n < 0 then "-" else "") ++ toString (a / 100) ++ "." ++ pad2 (a % 100)

/-- Render an optional numeric cell: two decimals, or `"-"` when absent
(`scraper.py`, lines 106–108). -/
def optFmt2 (x : Option ℚ) : String :=
  match x with
  | some q => fmt2 q
  | none => "-"

/-- Group a reversed digit list into blocks of three (low-order first). -/
def group3 : List Char → List (List Char)
  | [] => []
  | [a] => [[a]]
  | [a, b] => [[a, b]]
  | a :: b :: c :: rest => [a, b, c] :: group3 rest

/-- Python `f"{n:,}"`: thousands separators (`scraper.py`, line 111). -/
def commaFmt (n : Int) : String :=
  let groups := (group3 (toString n.natAbs).data.reverse).map (fun g => String.mk g.reverse)
  (if n < 0 then "-" else "") ++ String.intercalate "," groups.reverse

/-- Python `str()` of a stored field value, as interpolated into an
f-string (used for the `name` cell, which the code never type-checks). -/
def jvalStr : JVal → String
  | .jstr s => s
  | .jnum x => toString x
  | .jbool b => if b then "True" else "False"
  | .jnull => "None"

/-- The constant header row of each table (`scraper.py`, line 103). -/
def tblHead : String :=
  "<tr><th>#</th><th>Symbol</th><th>Name</th><th>Price</th><th>Δ</th><th>Δ%</th><th>Volume</th></tr>"

/-- One rendered table row for rank number `i` (`scraper.py`,
lines 105–112). -/
def rowHtml (i : Nat) (r : Row) : String :=
  "<tr><td>" ++ toString i ++ "</td><td>" ++ r.symbol ++ "</td><td>" ++ jvalStr r.name
    ++ "</td>" ++ "<td>" ++ optFmt2 r.price ++ "</td><td>" ++ optFmt2 r.change
    ++ "</td><td>" ++ optFmt2 r.change_pct ++ "</td><td>" ++ commaFmt r.volume ++ "</td></tr>"

/-- The body accumulation loop `for i, r in enumerate(rows, 1): body += ...`
(`scraper.py`, lines 104–112), with `i` starting at the given rank. -/
def tblBody : Nat → List Row → String
  | _, [] => ""
  | i, r :: rs => rowHtml i r ++ tblBody (i + 1) rs

/-- The nested `tbl(rows, title)` helper (`scraper.py`, lines 100–113):
a "no data" paragraph for an empty list, otherwise a heading and a table
whose rows are numbered from 1. -/
def tbl (rows : List Row) (title : String) : String :=
  if rows.isEmpty then "<p>No data for " ++ title ++ ".</p>"
  else
    "<h3>" ++ title ++ "</h3><table border='1' cellspacing='0' cellpadding='6'>"
      ++ tblHead ++ tblBody 1 rows ++ "</table>"

/-- `build_email_html(ist_time_str, nse_rows, bse_rows)` (`scraper.py`,
lines 99–124), reproducing the f-string template verbatim. -/
def build_email_html (ist_time_str : String) (nse_rows bse_rows : List Row) : String :=
  "\n    <html><body>\n      <p><strong>Top " ++ toString nse_rows.length
    ++ " Most Active (by volume) — NSE</strong><br/>\n      <em>Run at " ++ ist_time_str
    ++ " IST</em></p>\n      " ++ tbl nse_rows "NSE (.NS)"
    ++ "\n      <br/>\n      <p><strong>Top " ++ toString bse_rows.length
    ++ " Most Active (by volume) — BSE</strong></p>\n      " ++ tbl bse_rows "BSE (.BO)"
    ++ "\n      <p style=\"color:#666;font-size:12px;\">Source: Yahoo Finance Screener (unofficial).</p>\n    </body></html>\n    "

/-! ## Mail dispatcher (`scraper.py`, lines 126–140) -/

/-- The run configuration read from the environment at process start
(`scraper.py`, lines 22–30). -/
structure Config where
  smtp_host : String
  smtp_port : Nat
  smtp_user : String
  smtp_pass : String
  from_email : String
  to_emails : List String
  top_n : Nat
  enforce_market_hours : Bool
deriving DecidableEq

/-- Network-session actions performed by `send_email` once the
configuration check has passed (`scraper.py`, lines 136–139). -/
inductive NetEvent where
  | connect (host : String) (port : Nat)
  | starttls
  | login (user pw : String)
  | sendmail (from_addr : String) (to_addrs : List String) (message : String)
deriving DecidableEq

/-- The truthiness conjunction guarding `send_email` (`scraper.py`,
line 127): every component must be non-empty / non-zero. -/
def configOk (cfg : Config) : Bool :=
  (cfg.smtp_host != "") && (cfg.smtp_port != 0) && (cfg.smtp_user != "")
    && (cfg.smtp_pass != "") && (cfg.from_email != "") && !cfg.to_emails.isEmpty

/-- `send_email(subject, html_body)` (`scraper.py`, lines 126–140):
raises `RuntimeError` (modelled as `Except.error`) before any network
action when the configuration is incomplete; otherwise performs exactly
one connect / STARTTLS / login / sendmail session.  The MIME message is
abstracted as subject and body joined by a newline. -/
def send_email (cfg : Config) (subject html_body : String) : Except String (List NetEvent) :=
  if !configOk cfg then
    .error "Email config missing. Set SMTP_*, FROM_EMAIL, TO_EMAILS as GitHub Secrets."
  else
    .ok [.connect cfg.smtp_host cfg.smtp_port, .starttls,
      .login cfg.smtp_user cfg.smtp_pass,
      .sendmail cfg.from_email cfg.to_emails (subject ++ "\n" ++ html_body)]

/-! ## Orchestration (`scraper.py`, lines 142–159) -/

/-- How a run of `main()` ends.  `skipped` and `noData` are the two
successful early returns; `sent` is a successful full run; `configError`
is the `RuntimeError` from `send_email` escaping `main`; `crashed` is the
`TypeError` from a truthy non-string `symbol` field escaping `main`. -/
inductive MainResult where
  | skipped
  | noData
  | sent (subject html : String) (net : List NetEvent)
  | configError (msg : String)
  | crashed
deriving DecidableEq

/-- `main()` (`scraper.py`, lines 142–159), as a function of the run
configuration, the current IST datetime and the fetch-attempt oracle.
Returns the run outcome together with the trace of fetch events
performed (empty when the market-hours gate skips the run). -/
def main (cfg : Config) (nowIST : ISTDateTime) (oracle : Nat → AttemptResult) :
    MainResult × List FetchEvent :=
  let ist_time_str := strftimeYmdHM nowIST
  if cfg.enforce_market_hours && !is_market_open_ist nowIST then (.skipped, [])
  else
    let fr := yahoo_screener_most_active_india oracle (max (cfg.top_n * 6) 60) 3
    if fr.1.isEmpty then (.noData, fr.2)
    else
      match select_top_by_exchange fr.1 ".NS" cfg.top_n,
          select_top_by_exchange fr.1 ".BO" cfg.top_n with
      | some nse, some bse =>
        let subject := "India Most-Active (Vol) — NSE/BSE Top " ++ toString cfg.top_n
          ++ " @ " ++ ist_time_str ++ " IST"
        let html := build_email_html ist_time_str nse bse
        (match send_email cfg subject html with
          | .error e => (.configError e, fr.2)
          | .ok net => (.sent subject html net, fr.2))
      | _, _ => (.crashed, fr.2)

/-! ## Concrete instances used in counterexamples and witnesses -/

/-- Wednesday 2025-01-01, 09:15:00 IST (weekday 2). -/
def wed0915IST : ISTDateTime := ⟨2025, 1, 1, 2, 9, 15, 0, 0⟩

/-- Wednesday 2025-01-01, 10:00:00 IST (weekday 2). -/
def wed1000IST : ISTDateTime := ⟨2025, 1, 1, 2, 10, 0, 0, 0⟩

/-- Wednesday 2025-01-01, 16:00:00 IST (weekday 2). -/
def wed1600IST : ISTDateTime := ⟨2025, 1, 1, 2, 16, 0, 0, 0⟩

/-- Saturday 2025-01-04, 12:00:00 IST (weekday 5). -/
def sat1200IST : ISTDateTime := ⟨2025, 1, 4, 5, 12, 0, 0, 0⟩

/-- An attempt oracle on which every fetch attempt fails. -/
def allFail : Nat → AttemptResult := fun _ => .failure

/-- A fully populated run configuration. -/
def cfgAllSet : Config :=
  { smtp_host := "smtp.example.com", smtp_port := 587, smtp_user := "user@example.com"
    smtp_pass := "secret", from_email := "user@example.com"
    to_emails := ["to@example.com"], top_n := 10, enforce_market_hours := true }

/-- `cfgAllSet` with `SMTP_PASS` unset. -/
def cfgNoPass : Config := { cfgAllSet with smtp_pass := "" }

/-- `cfgAllSet` with market-hours enforcement disabled. -/
def cfgNoEnforce : Config := { cfgAllSet with enforce_market_hours := false }

/-! ## C4: the market gate -/

/-- For in-range time fields, Python's lexicographic `time` comparison
agrees with comparison of microseconds since midnight. -/
theorem pyTimeLE_iff_us {h1 m1 s1 u1 h2 m2 s2 u2 : Nat}
    (hm1 : m1 < 60) (hs1 : s1 < 60) (hu1 : u1 < 1000000)
    (hm2 : m2 < 60) (hs2 : s2 < 60) (hu2 : u2 < 1000000) :
    pyTimeLE h1 m1 s1 u1 h2 m2 s2 u2 = true ↔
      ((h1 * 60 + m1) * 60 + s1) * 1000000 + u1
        ≤ ((h2 * 60 + m2) * 60 + s2) * 1000000 + u2 := by
  unfold pyTimeLE
  split_ifs <;> simp <;> omega

/-- Claim C4: the gate reports open iff the local (UTC+5:30) datetime
falls on Monday–Friday (weekday value ≤ 4) and its time of day lies in
the inclusive window [09:15, 15:30]; in particular it is closed on any
Saturday regardless of time of day, open at Wednesday 09:15 and
Wednesday 10:00, and closed at Wednesday 16:00. -/
theorem market_gate_window_c4 :
    (∀ d : ISTDateTime,
        is_market_open_ist d = true ↔
          d.weekday.val ≤ 4 ∧ 33300000000 ≤ timeOfDayUS d ∧ timeOfDayUS d ≤ 55800000000)
      ∧ (∀ d : ISTDateTime, d.weekday.val = 5 → is_market_open_ist d = false)
      ∧ is_market_open_ist wed0915IST = true
      ∧ is_market_open_ist wed1000IST = true
      ∧ is_market_open_ist wed1600IST = false := by
  refine ⟨?_, ?_, by decide, by decide, by decide⟩
  · intro d
    unfold is_market_open_ist timeOfDayUS
    split_ifs with hw
    · simp
      omega
    · rw [Bool.and_eq_true,
        pyTimeLE_iff_us (by norm_num) (by norm_num) (by norm_num)
          d.minute.isLt d.second.isLt d.microsecond.isLt,
        pyTimeLE_iff_us d.minute.isLt d.second.isLt d.microsecond.isLt
          (by norm_num) (by norm_num) (by norm_num)]
      omega
  · intro d h
    simp [is_market_open_ist, h]

/-- Witness for C4 at a concrete Saturday instant. -/
theorem market_gate_window_c4_witness : is_market_open_ist sat1200IST = false :=
  market_gate_window_c4.2.1 sat1200IST rfl

/-! ## C3: retry/backoff of the fetcher -/

/-- Counterexample to C3 as stated: with three failing attempts, the run
performs three sleeps (1.5 s, 3.0 s and 4.5 s), not exactly two — the
loop body also sleeps `1.5 * 3` seconds after the third, final failed
attempt, before `[]` is returned. -/
theorem fetch_three_sleeps_c3_counterexample :
    sleepsOf (yahoo_screener_most_active_india allFail 120 3).2 = [3 / 2, 3, 9 / 2]
      ∧ (sleepsOf (yahoo_screener_most_active_india allFail 120 3).2).length = 3 := by
  have h : sleepsOf (yahoo_screener_most_active_india allFail 120 3).2 = [3 / 2, 3, 9 / 2] := by
    simp [yahoo_screener_most_active_india, fetchLoop, allFail, sleepsOf]
    norm_num
  exact ⟨h, by rw [h]; rfl⟩

/-- Claim C3 (amended): when every attempt fails and `retries = 3`, the
fetcher returns the empty list after exactly three attempts; the two
sleeps between consecutive attempts last 1.5 s and 3.0 s (the sleep
between attempt k and attempt k+1 lasts 1.5·k seconds), and one further
sleep of 4.5 s follows the final attempt before the empty result is
returned. -/
theorem fetch_retries_exhausted_c3 (oracle : Nat → AttemptResult) (size : Nat)
    (h : ∀ k, oracle k = AttemptResult.failure) :
    yahoo_screener_most_active_india oracle size 3 =
      ([], [.attempt 1, .sleep (3 / 2), .attempt 2, .sleep 3, .attempt 3, .sleep (9 / 2)]) := by
  simp [yahoo_screener_most_active_india, fetchLoop, h]
  norm_num

/-- Witness for C3 with the concrete all-failures oracle. -/
theorem fetch_retries_exhausted_c3_witness :
    yahoo_screener_most_active_india allFail 120 3 =
      ([], [.attempt 1, .sleep (3 / 2), .attempt 2, .sleep 3, .attempt 3, .sleep (9 / 2)]) :=
  fetch_retries_exhausted_c3 allFail 120 (fun _ => rfl)

/-! ## C5: the mail configuration guard -/

/-- Claim C5: whenever any of relay host, port, username, password,
sender address or the recipient list is empty/unconfigured, `send_email`
raises the configuration error immediately and performs no network
action (the result is never an `ok` carrying a network session). -/
theorem send_email_config_guard_c5 (cfg : Config) (subject html_body : String)
    (h : cfg.smtp_host = "" ∨ cfg.smtp_port = 0 ∨ cfg.smtp_user = "" ∨ cfg.smtp_pass = ""
      ∨ cfg.from_email = "" ∨ cfg.to_emails = []) :
    send_email cfg subject html_body =
        Except.error "Email config missing. Set SMTP_*, FROM_EMAIL, TO_EMAILS as GitHub Secrets."
      ∧ ∀ net : List NetEvent, send_email cfg subject html_body ≠ Except.ok net := by
  have hok : configOk cfg = false := by
    rcases h with h | h | h | h | h | h <;> simp [configOk, h]
  exact ⟨by simp [send_email, hok], fun net => by simp [send_email, hok]⟩

/-- Witness for C5: a configuration missing only `SMTP_PASS`. -/
theorem send_email_config_guard_c5_witness :
    send_email cfgNoPass "subject" "body" =
        Except.error "Email config missing. Set SMTP_*, FROM_EMAIL, TO_EMAILS as GitHub Secrets."
      ∧ ∀ net : List NetEvent, send_email cfgNoPass "subject" "body" ≠ Except.ok net :=
  send_email_config_guard_c5 cfgNoPass "subject" "body"
    (Or.inr (Or.inr (Or.inr (Or.inl rfl))))

/-! ## C8: the market-hours skip in `main` -/

/-- Claim C8: when market-hours enforcement is enabled and the gate
reports closed, `main` returns successfully with the `skipped` outcome
and performs no fetch attempt (its fetch-event trace is empty), hence
neither renders nor dispatches mail. -/
theorem main_skips_when_closed_c8 (cfg : Config) (now : ISTDateTime)
    (oracle : Nat → AttemptResult)
    (henf : cfg.enforce_market_hours = true) (hclosed : is_market_open_ist now = false) :
    main cfg now oracle = (MainResult.skipped, []) := by
  simp [main, henf, hclosed]

/-- Witness for C8 at a Saturday instant with enforcement on. -/
theorem main_skips_when_closed_c8_witness :
    main cfgAllSet sat1200IST allFail = (MainResult.skipped, []) :=
  main_skips_when_closed_c8 cfgAllSet sat1200IST allFail rfl (by decide)

/-! ## C6: empty fetch result is "nothing to report" -/

/-- When every attempt fails, the fetch loop's quote result is empty,
for every starting attempt number and every remaining fuel. -/
theorem fetchLoop_failure_fst (oracle : Nat → AttemptResult)
    (h : ∀ k, oracle k = AttemptResult.failure) (a fuel : Nat) :
    (fetchLoop oracle a fuel).1 = [] := by
  induction fuel generalizing a with
  | zero => rfl
  | succ n ih => simp [fetchLoop, h a, ih]

/-- Claim C6: when every fetch attempt fails (and the run is not skipped
by the gate), the fetcher returns an empty sequence rather than raising,
and `main` treats it as nothing to report: the run ends successfully
with the `noData` outcome, without rendering or sending mail. -/
theorem main_no_data_c6 (cfg : Config) (now : ISTDateTime) (oracle : Nat → AttemptResult)
    (hgate : cfg.enforce_market_hours = false ∨ is_market_open_ist now = true)
    (h : ∀ k, oracle k = AttemptResult.failure) :
    (yahoo_screener_most_active_india oracle (max (cfg.top_n * 6) 60) 3).1 = []
      ∧ (main cfg now oracle).1 = MainResult.noData := by
  have hempty : (yahoo_screener_most_active_india oracle (max (cfg.top_n * 6) 60) 3).1 = [] :=
    fetchLoop_failure_fst oracle h 1 3
  have hcond : (cfg.enforce_market_hours && !is_market_open_ist now) = false := by
    rcases hgate with h1 | h1 <;> simp [h1]
  refine ⟨hempty, ?_⟩
  simp [main, hcond, hempty]

/-- Witness for C6: enforcement disabled, all attempts failing. -/
theorem main_no_data_c6_witness :
    (yahoo_screener_most_active_india allFail (max (cfgNoEnforce.top_n * 6) 60) 3).1 = []
      ∧ (main cfgNoEnforce wed1000IST allFail).1 = MainResult.noData :=
  main_no_data_c6 cfgNoEnforce wed1000IST allFail (Or.inl rfl) (fun _ => rfl)

/-! ## C2: the computed-volume fallback chain -/

/-- Modelled from the spec's words, for the refinement comparison of C2:
"volume = regularMarketVolume if present and numeric, else
averageDailyVolume3Month if present and numeric, else 0". -/
def volumeSpecC2 (q : Quote) : ℚ :=
  match jget q "regularMarketVolume" with
  | some v =>
    if isNumeric v then toRat v
    else
      match jget q "averageDailyVolume3Month" with
      | some w => if isNumeric w then toRat w else 0
      | none => 0
  | none =>
    match jget q "averageDailyVolume3Month" with
    | some w => if isNumeric w then toRat w else 0
    | none => 0

/-- The first truthy (non-null, nonzero, non-empty, non-false) value
among the two volume fields, in order — the selection the code's
`or`-chain actually performs (amended C2). -/
def firstTruthyVolume (q : Quote) : Option JVal :=
  match jget q "regularMarketVolume" with
  | some v =>
    if truthy v then some v
    else
      match jget q "averageDailyVolume3Month" with
      | some w => if truthy w then some w else none
      | none => none
  | none =>
    match jget q "averageDailyVolume3Month" with
    | some w => if truthy w then some w else none
    | none => none

/-- The amended C2 volume: `int(v)` for the first truthy volume field
value `v` when it is numeric; 0 when no field is truthy or the selected
value is not numeric. -/
def volumeAmendedC2 (q : Quote) : Int :=
  match firstTruthyVolume q with
  | some v => if isNumeric v then pyInt (toRat v) else 0
  | none => 0

/-- A kept quote whose `regularMarketVolume` is present, numeric and
zero, with a nonzero `averageDailyVolume3Month`. -/
def quoteRegZero : Quote :=
  [("symbol", .jstr "A.NS"), ("regularMarketVolume", .jnum 0),
   ("averageDailyVolume3Month", .jnum 500)]

/-- Counterexample to C2 as stated: for a kept quote with
`regularMarketVolume = 0` (present and numeric) and
`averageDailyVolume3Month = 500`, the code computes volume 500 — the
falsy 0 falls through the `or`-chain — while the claimed rule demands 0. -/
theorem volume_fallback_c2_counterexample :
    quoteVolume quoteRegZero = 500
      ∧ volumeSpecC2 quoteRegZero = 0
      ∧ (quoteVolume quoteRegZero : ℚ) ≠ volumeSpecC2 quoteRegZero
      ∧ select_top_by_exchange [quoteRegZero] ".NS" 10 =
          some [{ symbol := "A.NS", name := .jstr "A.NS", volume := 500,
                  price := none, change := none, change_pct := none }] := by
  refine ⟨by decide, by decide, ?_, by decide⟩
  intro heq
  have h1 : quoteVolume quoteRegZero = 500 := by decide
  have h2 : volumeSpecC2 quoteRegZero = 0 := by decide
  rw [h1, h2] at heq
  norm_num at heq

/-- Claim C2 (amended): for every quote, the computed volume is `int(v)`
where `v` is the first truthy value among `regularMarketVolume` and
`averageDailyVolume3Month` provided it is numeric, and 0 when neither
field holds a truthy value or the selected value is not numeric; in
particular a quote lacking both volume fields gets computed volume 0. -/
theorem volume_fallback_c2 (q : Quote) :
    quoteVolume q = volumeAmendedC2 q
      ∧ (jget q "regularMarketVolume" = none →
          jget q "averageDailyVolume3Month" = none → quoteVolume q = 0) := by
  constructor
  · unfold quoteVolume volumeAmendedC2 firstTruthyVolume getD pyOr
    cases hr : jget q "regularMarketVolume" <;>
      cases ha : jget q "averageDailyVolume3Month" <;>
        simp only [Option.getD_some, Option.getD_none] <;>
          split_ifs <;> simp_all [truthy, isNumeric, toRat, pyInt]
  · intro h1 h2
    simp [quoteVolume, getD, h1, h2, pyOr, truthy, isNumeric, toRat, pyInt]

/-- Witness for C2 at the empty quote record (both fields absent). -/
theorem volume_fallback_c2_witness :
    quoteVolume [] = volumeAmendedC2 [] ∧ quoteVolume [] = 0 :=
  ⟨(volume_fallback_c2 []).1, (volume_fallback_c2 []).2 rfl rfl⟩

/-! ## C1: length bound, descending order and stability of the ranked list -/

/-- Any two rows with the same volume are related by the sort relation. -/
theorem pairwise_filter_volume (l : List Row) (v : Int) :
    (l.filter (fun r => r.volume == v)).Pairwise volGE := by
  apply List.pairwise_of_forall_mem_list
  intro a ha b hb
  have ha' := (List.mem_filter.mp ha).2
  have hb' := (List.mem_filter.mp hb).2
  simp only [beq_iff_eq] at ha' hb'
  unfold volGE
  omega

/-- Stability of the modelled sort, in filter form: restricting the
sorted list to the rows of any one volume value gives exactly the
restriction of the input, in input order. -/
theorem filter_insertionSort_volume (l : List Row) (v : Int) :
    (l.insertionSort volGE).filter (fun r => r.volume == v)
      = l.filter (fun r => r.volume == v) := by
  have hsub : (l.filter (fun r => r.volume == v)).Sublist (l.insertionSort volGE) :=
    List.sublist_insertionSort (pairwise_filter_volume l v) (List.filter_sublist l)
  have hsub2 := hsub.filter (fun r => r.volume == v)
  rw [List.filter_eq_self.mpr (fun a ha => (List.mem_filter.mp ha).2)] at hsub2
  have hperm := (List.perm_insertionSort volGE l).filter (fun r => r.volume == v)
  exact (hsub2.eq_of_length hperm.length_eq.symm).symm

/-- Claim C1: for every input list of quotes, suffix and top-N for which
the ranker returns (does not crash), the output has length at most top-N,
is pairwise non-increasing by computed volume, and is stable: for every
volume value, the output rows of that volume are an initial segment of
the kept input rows of that volume, in the input's relative order. -/
theorem ranked_list_c1 (quotes : List Quote) (sfx : String) (n : Nat)
    (rows out : List Row)
    (hrows : filterRows quotes sfx = some rows)
    (hout : select_top_by_exchange quotes sfx n = some out) :
    out.length ≤ n
      ∧ out.Pairwise volGE
      ∧ ∀ v : Int, ∃ t, out.filter (fun r => r.volume == v) ++ t
          = rows.filter (fun r => r.volume == v) := by
  have hout' : out = (rows.insertionSort volGE).take n := by
    unfold select_top_by_exchange at hout
    rw [hrows] at hout
    exact (Option.some.inj hout).symm
  subst hout'
  refine ⟨List.length_take_le n _, ?_, ?_⟩
  · exact List.Pairwise.sublist (List.take_sublist n _) (List.sorted_insertionSort volGE rows)
  · intro v
    refine ⟨((rows.insertionSort volGE).drop n).filter (fun r => r.volume == v), ?_⟩
    rw [← List.filter_append, List.take_append_drop, filter_insertionSort_volume]

/-- The quotes of the worked scenario in the spec. -/
def tcsQ : Quote := [("symbol", .jstr "TCS.NS"), ("regularMarketVolume", .jnum 500)]

/-- See `tcsQ`. -/
def infyQ : Quote := [("symbol", .jstr "INFY.NS"), ("regularMarketVolume", .jnum 900)]

/-- See `tcsQ`. -/
def xboQ : Quote := [("symbol", .jstr "X.BO"), ("regularMarketVolume", .jnum 100)]

/-- The row built from `tcsQ`. -/
def tcsRow : Row :=
  { symbol := "TCS.NS", name := .jstr "TCS.NS", volume := 500,
    price := none, change := none, change_pct := none }

/-- The row built from `infyQ`. -/
def infyRow : Row :=
  { symbol := "INFY.NS", name := .jstr "INFY.NS", volume := 900,
    price := none, change := none, change_pct := none }

/-- Witness for C1 on the spec's worked scenario (`topN = 2`, NSE). -/
theorem ranked_list_c1_witness :
    ([infyRow, tcsRow] : List Row).length ≤ 2
      ∧ ([infyRow, tcsRow] : List Row).Pairwise volGE
      ∧ ∀ v : Int, ∃ t, ([infyRow, tcsRow] : List Row).filter (fun r => r.volume == v) ++ t
          = ([tcsRow, infyRow] : List Row).filter (fun r => r.volume == v) :=
  ranked_list_c1 [tcsQ, infyQ, xboQ] ".NS" 2 [tcsRow, infyRow] [infyRow, tcsRow]
    (by decide) (by decide)

/-! ## C7: only matching suffixes appear in a ranked list -/

/-- Every row kept by the filtering loop has a symbol ending with the
requested suffix. -/
theorem filterRows_endsWith (quotes : List Quote) (sfx : String) (rows : List Row)
    (h : filterRows quotes sfx = some rows) :
    ∀ r ∈ rows, endsWithPy r.symbol sfx = true := by
  induction quotes generalizing rows with
  | nil =>
    simp only [filterRows, Option.some.injEq] at h
    subst h
    simp
  | cons q qs ih =>
    cases hsym : symbolOf q with
    | none => simp [filterRows, hsym] at h
    | some sym =>
      simp only [filterRows, hsym] at h
      by_cases he : endsWithPy sym sfx = true
      · rw [if_pos he] at h
        cases hrec : filterRows qs sfx with
        | none => rw [hrec] at h; exact absurd h (by simp)
        | some rs =>
          rw [hrec] at h
          have hrows : rows = mkRow q sym :: rs := (Option.some.inj h).symm
          subst hrows
          intro r hr
          rcases List.mem_cons.mp hr with rfl | hr'
          · simpa [mkRow] using he
          · exact ih rs hrec r hr'
      · rw [if_neg he] at h
        intro r hr
        exact ih rows h r hr

/-- Claim C7: no quote whose symbol does not end with the requested
suffix appears in that suffix's ranked list — every row of the output of
`select_top_by_exchange` has a symbol ending with the suffix (exact,
case-sensitive match). -/
theorem suffix_filter_c7 (quotes : List Quote) (sfx : String) (n : Nat) (out : List Row)
    (hout : select_top_by_exchange quotes sfx n = some out) :
    ∀ r ∈ out, endsWithPy r.symbol sfx = true := by
  unfold select_top_by_exchange at hout
  cases hrows : filterRows quotes sfx with
  | none => rw [hrows] at hout; exact absurd hout (by simp)
  | some rows =>
    rw [hrows] at hout
    have hout' : out = (rows.insertionSort volGE).take n := (Option.some.inj hout).symm
    subst hout'
    intro r hr
    have hmem : r ∈ rows := (List.mem_insertionSort volGE).mp (List.mem_of_mem_take hr)
    exact filterRows_endsWith quotes sfx rows hrows r hmem

/-- Witness for C7 on the spec's worked scenario. -/
theorem suffix_filter_c7_witness : endsWithPy infyRow.symbol ".NS" = true :=
  suffix_filter_c7 [tcsQ, infyQ, xboQ] ".NS" 2 [infyRow, tcsRow] (by decide)
    infyRow (by decide)

/-! ## C10: a missing or null symbol is treated as the empty string -/

/-- A non-empty string is not a suffix of the empty string. -/
theorem endsWithPy_empty {sfx : String} (h : sfx ≠ "") : endsWithPy "" sfx = false := by
  have hd : sfx.data ≠ [] := by
    intro hnil
    apply h
    cases sfx
    simp_all
  unfold endsWithPy List.isSuffixOf
  cases hrev : sfx.data.reverse with
  | nil => exact absurd (List.reverse_eq_nil_iff.mp hrev) hd
  | cons c cs => rfl

/-- Deleting a quote whose computed symbol is `""` and which fails the
suffix test does not change the filtering loop's result. -/
theorem filterRows_skip (q : Quote) (sfx : String) (post : List Quote)
    (hq : symbolOf q = some "") (hne : endsWithPy "" sfx = false) :
    ∀ pre, filterRows (pre ++ q :: post) sfx = filterRows (pre ++ post) sfx := by
  intro pre
  induction pre with
  | nil => simp [filterRows, hq, hne]
  | cons p ps ih =>
    simp only [List.cons_append, filterRows, List.append_eq]
    rw [ih]

/-- Claim C10: for every non-empty suffix, a quote whose `symbol` field
is missing or null is treated as having the empty-string symbol, and its
presence anywhere in the input makes no difference to the ranked list
produced by `select_top_by_exchange`. -/
theorem missing_symbol_c10 (pre post : List Quote) (sfx : String) (n : Nat) (q : Quote)
    (hs : sfx ≠ "")
    (hq : jget q "symbol" = none ∨ jget q "symbol" = some JVal.jnull) :
    symbolOf q = some ""
      ∧ select_top_by_exchange (pre ++ q :: post) sfx n
          = select_top_by_exchange (pre ++ post) sfx n := by
  have hsym : symbolOf q = some "" := by
    rcases hq with h | h <;> simp [symbolOf, getD, h, pyOr, truthy]
  refine ⟨hsym, ?_⟩
  unfold select_top_by_exchange
  rw [filterRows_skip q sfx post hsym (endsWithPy_empty hs) pre]

/-- Witness for C10: a quote record without a `symbol` key, inserted
between the scenario quotes. -/
theorem missing_symbol_c10_witness :
    symbolOf ([] : Quote) = some ""
      ∧ select_top_by_exchange [tcsQ, ([] : Quote), infyQ] ".NS" 2
          = select_top_by_exchange [tcsQ, infyQ] ".NS" 2 :=
  missing_symbol_c10 [tcsQ] [infyQ] ".NS" 2 [] (by decide) (Or.inl rfl)

/-! ## C9: rendering of empty and non-empty ranked lists -/

/-- Each row of a rendered table body occurs in it, numbered by its
position: the row at 0-based position `j` is rendered by `rowHtml` with
rank `i + j` when enumeration starts at `i`. -/
theorem tblBody_decomp (rows : List Row) :
    ∀ (i j : Nat) (hj : j < rows.length),
      ∃ p q, tblBody i rows = p ++ rowHtml (i + j) (rows.get ⟨j, hj⟩) ++ q := by
  induction rows with
  | nil => intro i j hj; exact absurd hj (by simp)
  | cons r rs ih =>
    intro i j hj
    cases j with
    | zero =>
      refine ⟨"", tblBody (i + 1) rs, ?_⟩
      show rowHtml i r ++ tblBody (i + 1) rs
        = "" ++ rowHtml (i + 0) ((r :: rs).get ⟨0, hj⟩) ++ tblBody (i + 1) rs
      rw [String.empty_append, Nat.add_zero]
      rfl
    | succ j' =>
      have hj' : j' < rs.length := by simpa using hj
      obtain ⟨p, q, hpq⟩ := ih (i + 1) j' hj'
      refine ⟨rowHtml i r ++ p, q, ?_⟩
      show rowHtml i r ++ tblBody (i + 1) rs
        = rowHtml i r ++ p ++ rowHtml (i + (j' + 1)) ((r :: rs).get ⟨j' + 1, hj⟩) ++ q
      rw [hpq]
      simp only [String.append_assoc]
      rw [show i + 1 + j' = i + (j' + 1) by omega]
      rfl

/-- Claim C9: for every timestamp label and pair of ranked lists, an
empty ranked list renders as the "no data" notice for its market — a
paragraph in place of a table, appearing verbatim in the document — while
a non-empty list renders as a heading plus a table whose body contains
each row numbered by its 1-based position. -/
theorem render_no_data_c9 (ts : String) (nse bse : List Row) :
    (nse = [] →
        tbl nse "NSE (.NS)" = "<p>No data for NSE (.NS).</p>"
          ∧ ∃ pre post, build_email_html ts nse bse
              = pre ++ "<p>No data for NSE (.NS).</p>" ++ post)
      ∧ (bse = [] →
          tbl bse "BSE (.BO)" = "<p>No data for BSE (.BO).</p>"
            ∧ ∃ pre post, build_email_html ts nse bse
                = pre ++ "<p>No data for BSE (.BO).</p>" ++ post)
      ∧ ∀ (title : String) (rows : List Row), rows ≠ [] →
          ∃ body, tbl rows title
              = "<h3>" ++ title ++ "</h3><table border='1' cellspacing='0' cellpadding='6'>"
                ++ tblHead ++ body ++ "</table>"
            ∧ body = tblBody 1 rows
            ∧ ∀ (j : Nat) (hj : j < rows.length),
                ∃ p q, body = p ++ rowHtml (j + 1) (rows.get ⟨j, hj⟩) ++ q := by
  refine ⟨?_, ?_, ?_⟩
  · intro h
    subst h
    refine ⟨rfl, ?_⟩
    have hdec : build_email_html ts [] bse
        = ("\n    <html><body>\n      <p><strong>Top " ++ toString (List.length ([] : List Row))
            ++ " Most Active (by volume) — NSE</strong><br/>\n      <em>Run at " ++ ts
            ++ " IST</em></p>\n      ")
          ++ tbl ([] : List Row) "NSE (.NS)"
          ++ ("\n      <br/>\n      <p><strong>Top " ++ toString bse.length
            ++ " Most Active (by volume) — BSE</strong></p>\n      " ++ tbl bse "BSE (.BO)"
            ++ "\n      <p style=\"color:#666;font-size:12px;\">Source: Yahoo Finance Screener (unofficial).</p>\n    </body></html>\n    ") := by
      simp only [build_email_html, String.append_assoc]
    rw [show tbl ([] : List Row) "NSE (.NS)" = "<p>No data for NSE (.NS).</p>" from rfl] at hdec
    exact ⟨_, _, hdec⟩
  · intro h
    subst h
    refine ⟨rfl, ?_⟩
    have hdec : build_email_html ts nse []
        = ("\n    <html><body>\n      <p><strong>Top " ++ toString nse.length
            ++ " Most Active (by volume) — NSE</strong><br/>\n      <em>Run at " ++ ts
            ++ " IST</em></p>\n      " ++ tbl nse "NSE (.NS)"
            ++ "\n      <br/>\n      <p><strong>Top " ++ toString (List.length ([] : List Row))
            ++ " Most Active (by volume) — BSE</strong></p>\n      ")
          ++ tbl ([] : List Row) "BSE (.BO)"
          ++ "\n      <p style=\"color:#666;font-size:12px;\">Source: Yahoo Finance Screener (unofficial).</p>\n    </body></html>\n    " := by
      simp only [build_email_html, String.append_assoc]
    rw [show tbl ([] : List Row) "BSE (.BO)" = "<p>No data for BSE (.BO).</p>" from rfl] at hdec
    exact ⟨_, _, hdec⟩
  · intro title rows hne
    refine ⟨tblBody 1 rows, ?_, rfl, ?_⟩
    · cases rows with
      | nil => exact absurd rfl hne
      | cons r rs => rfl
    · intro j hj
      obtain ⟨p, q, hpq⟩ := tblBody_decomp rows 1 j hj
      refine ⟨p, q, ?_⟩
      rw [Nat.add_comm j 1]
      exact hpq

/-- Witness for C9: the empty NSE list yields the notice, and a
singleton BSE list yields a table. -/
theorem render_no_data_c9_witness :
    tbl ([] : List Row) "NSE (.NS)" = "<p>No data for NSE (.NS).</p>"
      ∧ ∃ body, tbl [tcsRow] "BSE (.BO)"
          = "<h3>" ++ "BSE (.BO)" ++ "</h3><table border='1' cellspacing='0' cellpadding='6'>"
            ++ tblHead ++ body ++ "</table>" := by
  have h := render_no_data_c9 "2025-01-01 10:00" [] [tcsRow]
  obtain ⟨body, hb, -, -⟩ := h.2.2 "BSE (.BO)" [tcsRow] (by simp)
  exact ⟨(h.1 rfl).1, body, hb⟩

end Scraper
